import Mathlib

/-!
Verification of the year-selection and self-funding classification core of
the smart-insurance repository, shallowly embedded from
`tests/data/self_funded_classifier.py` and `process_data.py`.

Python strings are Lean `String`s; absent record fields are modelled by the
default strings the Python `dict.get` calls substitute ("" or "0").  Python
`dict` indexes built by `defaultdict(lambda: {"health": False, "stop": False})`
are modelled as total functions from keys to flag pairs, with the defaultdict
default for keys never written; Python floats are modelled as exact rationals
where a definition needs them.
-/

/-- The whitespace characters Python's `str.strip()` removes (ASCII range,
which is all the data at hand contains). -/
def isPyWS (c : Char) : Bool :=
  c == ' ' || c == '\t' || c == '\n' || c == '\r' || c == '\x0b' || c == '\x0c'

/-- Strip `isPyWS` characters from both ends of a character list. -/
def stripChars (cs : List Char) : List Char :=
  ((cs.dropWhile isPyWS).reverse.dropWhile isPyWS).reverse

/-- Embedding of Python `str.strip()`. -/
def pyStrip (s : String) : String := ⟨stripChars s.data⟩

/-- The classifier's module-level truthy set:
`TRUTHY = {"1","Y","y","TRUE","True","true"}`. -/
def TRUTHY : List String := ["1", "Y", "y", "TRUE", "True", "true"]

/-- Embedding of `is_true(v)`: `str(v).strip() in TRUTHY`
(self_funded_classifier.py lines 8-9). -/
def is_true (v : String) : Bool := TRUTHY.contains (pyStrip v)

/-- Decimal digit test used by the embedding of Python's numeric parsers. -/
def isDecDigit (c : Char) : Bool :=
  ['0', '1', '2', '3', '4', '5', '6', '7', '8', '9'].contains c

/-- Value of a list of decimal digits, most significant first. -/
def digitsVal (cs : List Char) : Nat :=
  cs.foldl (fun n c => 10 * n + (c.toNat - 48)) 0

/-- Embedding of Python `int(text)` on an already-stripped character list:
an optional sign followed by a non-empty run of decimal digits; `none`
models the `ValueError` Python raises on anything else. -/
def pyIntCore (cs : List Char) : Option Int :=
  match cs with
  | [] => none
  | c :: rest =>
    if c = '+' then
      if rest ≠ [] ∧ rest.all isDecDigit then some ((digitsVal rest : Int)) else none
    else if c = '-' then
      if rest ≠ [] ∧ rest.all isDecDigit then some (-(digitsVal rest : Int)) else none
    else
      if (c :: rest).all isDecDigit then some ((digitsVal (c :: rest) : Int)) else none

/-- Embedding of Python `int(s)` for a string: leading/trailing whitespace is
ignored, then `pyIntCore`. -/
def pyInt (s : String) : Option Int := pyIntCore (stripChars s.data)

/-- C4 counterexample: `is_true` accepts the whitespace-padded string " 1 "
even though " 1 " is not a member of the literal set
{"1","Y","y","TRUE","True","true"}, so membership in the literal set is not
exactly the condition under which the parser returns true. -/
theorem is_true_literal_set_cex :
    is_true " 1 " = true ∧ (" 1 " : String) ∉ TRUTHY := by
  constructor
  · rfl
  · decide

/-- C4 (amended): the boolean field parser returns true exactly when the
whitespace-stripped value is a member of the literal set
{"1","Y","y","TRUE","True","true"}; every other value, including the
defaults substituted for an absent field ("" and "0"), parses as false. -/
theorem is_true_stripped_membership :
    (∀ v : String, is_true v = true ↔ pyStrip v ∈ TRUTHY)
    ∧ is_true "" = false ∧ is_true "0" = false := by
  refine ⟨fun v => ?_, rfl, rfl⟩
  simp [is_true]

/-- Embedding of the 4-character year prefix extraction
`s[:4] if len(s) >= 4 else ""` used on (already stripped) date strings. -/
def year4 (s : String) : String :=
  if s.data.length ≥ 4 then ⟨s.data.take 4⟩ else ""

/-- Coverage flags of one `(ein, plan number, year)` index entry:
`{"health": ..., "stop": ...}`. -/
structure Flags where
  health : Bool
  stop : Bool
deriving DecidableEq

/-- Index key: `(ein, plan_number, year)`. -/
abbrev SKey := String × String × String

/-- A Schedule-A index (`idx_by_begin` / `idx_by_end`): a Python
`defaultdict` modelled as a total function, keys never written carrying the
defaultdict default `{"health": False, "stop": False}`. -/
abbrev SIndex := SKey → Flags

/-- The defaultdict default entry. -/
def emptyFlags : Flags := ⟨false, false⟩

/-- One raw Schedule A CSV row, as the fields `build_schedA_index` reads
(absent fields are the `""` that `r.get(...) or ""` substitutes). -/
structure SchedARow where
  SCH_A_EIN : String
  SCH_A_PLAN_NUM : String
  SCH_A_PLAN_YEAR_BEGIN_DATE : String
  SCH_A_PLAN_YEAR_END_DATE : String
  WLFR_BNFT_HEALTH_IND : String
  WLFR_BNFT_STOP_LOSS_IND : String
deriving DecidableEq

/-- OR-merge one row's health/stop flags into an index entry
(`if h: idx[key]["health"] = True` / `if s: idx[key]["stop"] = True`). -/
def indexStep (idx : SIndex) (k : SKey) (h s : Bool) : SIndex :=
  fun k' => if k' = k then ⟨(idx k).health || h, (idx k).stop || s⟩ else idx k'

/-- Embedding of the per-row body of `build_schedA_index`
(self_funded_classifier.py lines 23-44). -/
def processRow (acc : SIndex × SIndex) (r : SchedARow) : SIndex × SIndex :=
  let ein := pyStrip r.SCH_A_EIN
  let pn := pyStrip r.SCH_A_PLAN_NUM
  let byd := pyStrip r.SCH_A_PLAN_YEAR_BEGIN_DATE
  let eyd := pyStrip r.SCH_A_PLAN_YEAR_END_DATE
  if ein = "" ∨ pn = "" then acc
  else
    let begin_year := year4 byd
    let end_year := year4 eyd
    let h := is_true r.WLFR_BNFT_HEALTH_IND
    let s := is_true r.WLFR_BNFT_STOP_LOSS_IND
    (if begin_year ≠ "" then indexStep acc.1 (ein, pn, begin_year) h s else acc.1,
     if end_year ≠ "" then indexStep acc.2 (ein, pn, end_year) h s else acc.2)

/-- Embedding of `build_schedA_index(sched_a_path)`: fold the rows of the
CSV (in file order) into the pair of by-begin-year and by-end-year
indexes. -/
def build_schedA_index (rows : List SchedARow) : SIndex × SIndex :=
  rows.foldl processRow (fun _ => emptyFlags, fun _ => emptyFlags)

/-- One Form 5500 header row, as the fields `classify_plan` reads; an absent
field carries the default its `get` call substitutes ("" for name/code/date
fields, "0" for the indicator and count fields). -/
structure HeaderRow where
  SPONSOR_DFE_NAME : String
  SPONS_DFE_EIN : String
  SPONS_DFE_PN : String
  TYPE_WELFARE_BNFT_CODE : String
  FORM_PLAN_YEAR_BEGIN_DATE : String
  FORM_TAX_PRD : String
  BENEFIT_INSURANCE_IND : String
  BENEFIT_GEN_ASSET_IND : String
  FUNDING_INSURANCE_IND : String
  FUNDING_GEN_ASSET_IND : String
  SCH_A_ATTACHED_IND : String
  NUM_SCH_A_ATTACHED_CNT : String
deriving DecidableEq

/-- The metadata dict every `classify_plan` branch returns. -/
structure PlanMeta where
  ein : String
  plan_number : String
  plan_year_begin : String
  plan_year_end : String
deriving DecidableEq

/-- Embedding of the Schedule-A-attachment test of classify_plan line 63:
`is_true(SCH_A_ATTACHED_IND) or str(NUM_SCH_A_ATTACHED_CNT).strip() not in ("","0")`. -/
def any_scha_flag (ind cnt : String) : Bool :=
  is_true ind || (pyStrip cnt != "" && pyStrip cnt != "0")

def header_ein (r : HeaderRow) : String := pyStrip r.SPONS_DFE_EIN

def header_pn (r : HeaderRow) : String := pyStrip r.SPONS_DFE_PN

def header_fby (r : HeaderRow) : String := pyStrip r.FORM_PLAN_YEAR_BEGIN_DATE

def header_fte (r : HeaderRow) : String := pyStrip r.FORM_TAX_PRD

def header_year_b (r : HeaderRow) : String := year4 (header_fby r)

def header_year_e (r : HeaderRow) : String := year4 (header_fte r)

/-- Embedding of classify_plan lines 66-76: the guarded begin/end index
lookups that accumulate `sa_h` and `sa_s` (lookups happen only when both
ein and plan number are non-empty and the respective year prefix is
non-empty; a missing dict entry is the all-false default). -/
def lookup_sa_flags (bIdx eIdx : SIndex) (ein pn year_b year_e : String) : Flags :=
  if ein ≠ "" ∧ pn ≠ "" then
    let fb := if year_b ≠ "" then bIdx (ein, pn, year_b) else emptyFlags
    let fe := if year_e ≠ "" then eIdx (ein, pn, year_e) else emptyFlags
    ⟨fb.health || fe.health, fb.stop || fe.stop⟩
  else emptyFlags

/-- Embedding of `classify_plan(header_row, sa_begin_idx, sa_end_idx)`
(self_funded_classifier.py lines 48-107): label, reasons, metadata. -/
def classify_plan (r : HeaderRow) (sa_begin_idx sa_end_idx : SIndex) :
    String × List String × PlanMeta :=
  let benefit_ins := is_true r.BENEFIT_INSURANCE_IND
  let benefit_ga := is_true r.BENEFIT_GEN_ASSET_IND
  let funding_ins := is_true r.FUNDING_INSURANCE_IND
  let funding_ga := is_true r.FUNDING_GEN_ASSET_IND
  let any_scha := any_scha_flag r.SCH_A_ATTACHED_IND r.NUM_SCH_A_ATTACHED_CNT
  let saf := lookup_sa_flags sa_begin_idx sa_end_idx (header_ein r) (header_pn r)
    (header_year_b r) (header_year_e r)
  let sa_h := saf.health
  let sa_s := saf.stop
  let meta : PlanMeta := ⟨header_ein r, header_pn r, header_fby r, header_fte r⟩
  if sa_h then
    ("Insured",
     "Schedule A shows health/medical coverage" ::
       (if benefit_ins || funding_ins then ["Header insurance arrangement flags present"] else []),
     meta)
  else if sa_s && !sa_h then
    ("Self-funded w/ stop-loss",
     "Schedule A shows stop-loss but no medical" ::
       (if benefit_ga || funding_ga then ["Header general-assets arrangement present"] else []),
     meta)
  else if benefit_ga || funding_ga then
    if any_scha then
      ("Likely self-funded (non-medical Schedule A)",
       ["Header indicates general assets funding/benefit",
        "Schedule A attached (non-medical or unknown)"], meta)
    else
      ("Self-funded", ["Header indicates general assets funding/benefit"], meta)
  else if benefit_ins || funding_ins then
    ("Likely insured (needs Sched A verification)",
     ["Header indicates insurance arrangement but no SA health flag found"], meta)
  else if any_scha then
    ("Indeterminate (needs Sched A detail)",
     ["Schedule A attached but lacks health/stop-loss flags for this plan-year"], meta)
  else
    ("Likely self-funded (absence of health Schedule A)",
     ["No Sched A and no clear arrangement flags"], meta)

/-- An index is well-formed when every key with an empty ein, plan number or
year component carries the defaultdict default: `build_schedA_index` never
writes such a key, since it skips rows lacking ein or plan number and skips
empty year prefixes. -/
def wf_index (idx : SIndex) : Prop :=
  ∀ ein pn y, ein = "" ∨ pn = "" ∨ y = "" → idx (ein, pn, y) = emptyFlags

/-- Definition following the claim's words (for comparison with
`classify_plan`): the six-rule priority sequence evaluated top-to-bottom,
first match winning, where the plan's coverage flags are the OR of the
begin-year-index lookup and the end-year-index lookup. -/
def spec_funding_label (r : HeaderRow) (bIdx eIdx : SIndex) : String :=
  let health := (bIdx (header_ein r, header_pn r, header_year_b r)).health ||
    (eIdx (header_ein r, header_pn r, header_year_e r)).health
  let stop := (bIdx (header_ein r, header_pn r, header_year_b r)).stop ||
    (eIdx (header_ein r, header_pn r, header_year_e r)).stop
  let ga := is_true r.BENEFIT_GEN_ASSET_IND || is_true r.FUNDING_GEN_ASSET_IND
  let ins := is_true r.BENEFIT_INSURANCE_IND || is_true r.FUNDING_INSURANCE_IND
  let attach := any_scha_flag r.SCH_A_ATTACHED_IND r.NUM_SCH_A_ATTACHED_CNT
  if health then "Insured"
  else if stop then "Self-funded w/ stop-loss"
  else if ga then
    if attach then "Likely self-funded (non-medical Schedule A)" else "Self-funded"
  else if ins then "Likely insured (needs Sched A verification)"
  else if attach then "Indeterminate (needs Sched A detail)"
  else "Likely self-funded (absence of health Schedule A)"

lemma lookup_sa_flags_of_wf (bIdx eIdx : SIndex) (hb : wf_index bIdx)
    (he : wf_index eIdx) (ein pn yb ye : String) :
    lookup_sa_flags bIdx eIdx ein pn yb ye =
      ⟨(bIdx (ein, pn, yb)).health || (eIdx (ein, pn, ye)).health,
       (bIdx (ein, pn, yb)).stop || (eIdx (ein, pn, ye)).stop⟩ := by
  unfold lookup_sa_flags
  by_cases hein : ein = ""
  · simp only [hein, if_neg]
    rw [hb "" pn yb (Or.inl rfl), he "" pn ye (Or.inl rfl)]
    simp [emptyFlags]
  · by_cases hpn : pn = ""
    · simp only [hpn]
      rw [hb ein "" yb (Or.inr (Or.inl rfl)), he ein "" ye (Or.inr (Or.inl rfl))]
      simp [emptyFlags]
    · simp only [if_pos (And.intro hein hpn)]
      by_cases hyb : yb = "" <;> by_cases hye : ye = "" <;>
        simp [hyb, hye, emptyFlags, hb ein pn "" (Or.inr (Or.inr rfl)),
          he ein pn "" (Or.inr (Or.inr rfl))]

/-- The all-default index (an index built from no rows). -/
def zeroIdx : SIndex := fun _ => emptyFlags

/-- An index holding health coverage for EIN "12-3456789", plan "001",
year "2023" (the spec's scenario row). -/
def demoIdx : SIndex :=
  fun k => if k = ("12-3456789", "001", "2023") then ⟨true, false⟩ else emptyFlags

lemma zeroIdx_wf : wf_index zeroIdx := fun _ _ _ _ => rfl

lemma demoIdx_wf : wf_index demoIdx := by
  intro ein pn y h
  have hk : (ein, pn, y) ≠ ("12-3456789", "001", "2023") := by
    rcases h with h | h | h <;> simp [h]
  simp [demoIdx, hk]

/-- A header row whose only populated fields are the given ein, plan number,
year-begin and year-end dates, and the four indicator/count overrides. -/
def mkHeader (ein pn fby fte bins bga fins fga att cnt : String) : HeaderRow :=
  ⟨"ACME", ein, pn, "4A", fby, fte, bins, bga, fins, fga, att, cnt⟩

/-- The spec's scenario header: EIN "12-3456789", plan "001", plan year
2023, no arrangement flags. -/
def demoHeader : HeaderRow :=
  mkHeader "12-3456789" "001" "2023-01-01" "2023-12-31" "0" "0" "0" "0" "0" "0"

/-- C1: for every header row and every pair of well-formed Schedule-A
coverage indexes, `classify_plan` returns exactly the label of the six-rule
priority sequence evaluated top-to-bottom with first match winning, where
the plan's coverage flags are the OR of the begin-year-index lookup and the
end-year-index lookup; in particular a plan whose resolved health flag is
true always classifies "Insured". -/
theorem classify_plan_matches_priority_rules (r : HeaderRow) (bIdx eIdx : SIndex)
    (hb : wf_index bIdx) (he : wf_index eIdx) :
    (classify_plan r bIdx eIdx).1 = spec_funding_label r bIdx eIdx
    ∧ (((bIdx (header_ein r, header_pn r, header_year_b r)).health ||
        (eIdx (header_ein r, header_pn r, header_year_e r)).health) = true →
        (classify_plan r bIdx eIdx).1 = "Insured") := by
  have key := lookup_sa_flags_of_wf bIdx eIdx hb he (header_ein r) (header_pn r)
    (header_year_b r) (header_year_e r)
  have main : (classify_plan r bIdx eIdx).1 = spec_funding_label r bIdx eIdx := by
    simp only [classify_plan, spec_funding_label, key]
    cases (bIdx (header_ein r, header_pn r, header_year_b r)).health ||
        (eIdx (header_ein r, header_pn r, header_year_e r)).health <;>
      cases (bIdx (header_ein r, header_pn r, header_year_b r)).stop ||
        (eIdx (header_ein r, header_pn r, header_year_e r)).stop <;>
      (simp; try (split_ifs <;> rfl))
  refine ⟨main, fun h => ?_⟩
  rw [main]
  simp [spec_funding_label, h]

/-- C1 witness: on the spec's scenario (a Schedule A health entry for EIN
"12-3456789", plan "001", year "2023" and a header row with no arrangement
flags) the hypotheses hold, the classifier agrees with the rule table, and
the verdict is "Insured". -/
theorem classify_plan_matches_priority_rules_check :
    wf_index demoIdx
    ∧ (classify_plan demoHeader demoIdx demoIdx).1 = spec_funding_label demoHeader demoIdx demoIdx
    ∧ (classify_plan demoHeader demoIdx demoIdx).1 = "Insured" :=
  ⟨demoIdx_wf,
   (classify_plan_matches_priority_rules demoHeader demoIdx demoIdx demoIdx_wf demoIdx_wf).1,
   (classify_plan_matches_priority_rules demoHeader demoIdx demoIdx demoIdx_wf demoIdx_wf).2
     (by decide)⟩

/-- An index holding a stop-loss-only entry for EIN "12-3456789", plan
"001", year "2023". -/
def stopIdx : SIndex :=
  fun k => if k = ("12-3456789", "001", "2023") then ⟨false, true⟩ else emptyFlags

/-- Header with a general-assets flag and a Schedule-A-attached flag. -/
def hGAatt : HeaderRow := mkHeader "1" "1" "" "" "0" "1" "0" "0" "1" "0"

/-- Header with a general-assets flag and no attachment. -/
def hGAonly : HeaderRow := mkHeader "1" "1" "" "" "0" "1" "0" "0" "0" "0"

/-- Header with an insurance benefit flag only. -/
def hInsOnly : HeaderRow := mkHeader "1" "1" "" "" "1" "0" "0" "0" "0" "0"

/-- Header with a Schedule-A-attached flag only. -/
def hAttOnly : HeaderRow := mkHeader "1" "1" "" "" "0" "0" "0" "0" "1" "0"

/-- Header with no flags at all. -/
def hNoFlags : HeaderRow := mkHeader "1" "1" "" "" "0" "0" "0" "0" "0" "0"

/-- Header with a general-assets funding flag and attachment count "00". -/
def hGA00 : HeaderRow := mkHeader "1" "1" "" "" "0" "0" "0" "1" "0" "00"

/-- Header with no flags and attachment count "00". -/
def hAtt00 : HeaderRow := mkHeader "1" "1" "" "" "0" "0" "0" "0" "0" "00"

/-- Every label a `classify_plan` branch can return, in branch order. -/
def all_labels : List String :=
  ["Insured", "Self-funded w/ stop-loss", "Likely self-funded (non-medical Schedule A)",
   "Self-funded", "Likely insured (needs Sched A verification)",
   "Indeterminate (needs Sched A detail)",
   "Likely self-funded (absence of health Schedule A)"]

/-- C9 counterexample: `classify_plan` reaches seven pairwise-distinct
labels (one per branch, rule 3 contributing two), so its output is not
drawn from a six-label set. -/
theorem classify_plan_six_label_cex :
    [(classify_plan demoHeader demoIdx demoIdx).1,
     (classify_plan demoHeader stopIdx stopIdx).1,
     (classify_plan hGAatt zeroIdx zeroIdx).1,
     (classify_plan hGAonly zeroIdx zeroIdx).1,
     (classify_plan hInsOnly zeroIdx zeroIdx).1,
     (classify_plan hAttOnly zeroIdx zeroIdx).1,
     (classify_plan hNoFlags zeroIdx zeroIdx).1] = all_labels
    ∧ all_labels.Nodup := by
  constructor
  · decide
  · decide

/-- C9 (amended): for every header row and every pair of indexes,
`classify_plan` is total and returns exactly one label drawn from the fixed
seven-label set, a non-empty list of reason strings, and metadata carrying
the row's stripped employer id, plan number and year-begin/year-end
dates. -/
theorem classify_plan_total_shape (r : HeaderRow) (bIdx eIdx : SIndex) :
    (classify_plan r bIdx eIdx).1 ∈ all_labels
    ∧ (classify_plan r bIdx eIdx).2.1 ≠ []
    ∧ (classify_plan r bIdx eIdx).2.2 =
        ⟨header_ein r, header_pn r, header_fby r, header_fte r⟩ := by
  simp only [classify_plan]
  split_ifs <;> exact ⟨by simp [all_labels], by simp, rfl⟩

/-- C10: the classifier's Schedule-A attachment presence test holds exactly
when the attachment indicator parses truthy or the whitespace-stripped
attachment count differs from both "" and "0"; in particular count texts
"00", "-1" and "N/A" all count as an attachment being present, and steer
rules 3 and 5 ("Likely self-funded (non-medical Schedule A)" and
"Indeterminate (needs Sched A detail)") on otherwise-flagless headers. -/
theorem any_scha_flag_semantics :
    (∀ ind cnt : String, any_scha_flag ind cnt = true ↔
      (is_true ind = true ∨ (pyStrip cnt ≠ "" ∧ pyStrip cnt ≠ "0")))
    ∧ any_scha_flag "0" "00" = true
    ∧ any_scha_flag "0" "-1" = true
    ∧ any_scha_flag "0" "N/A" = true
    ∧ (classify_plan hGA00 zeroIdx zeroIdx).1 = "Likely self-funded (non-medical Schedule A)"
    ∧ (classify_plan hAtt00 zeroIdx zeroIdx).1 = "Indeterminate (needs Sched A detail)" := by
  refine ⟨fun ind cnt => ?_, by decide, by decide, by decide, by decide, by decide⟩
  simp [any_scha_flag, bne_iff_ne]

/-- Embedding of the overall classification roll-up in `main`
(self_funded_classifier.py lines 182-188). -/
def overall_classification (classes : List String) : String :=
  if classes.any (fun c => c.startsWith "Self-funded" || c.startsWith "Likely self-funded") then
    "Self-funded (at least one plan)"
  else if classes.all (fun c => c == "Insured" || c.startsWith "Likely insured") then
    "Insured"
  else "Mixed/Indeterminate"

/-- Embedding of main's per-company outcome: `none` models the distinct
"NO MEDICAL PLANS FOUND" report emitted (lines 178-180) when the
post-filter plan list is empty, short-circuiting the roll-up. -/
def company_verdict (classes : List String) : Option String :=
  if classes.isEmpty then none else some (overall_classification classes)

/-- C3: for every non-empty list of per-plan classification labels the
roll-up returns "Self-funded (at least one plan)" if any label begins with
"Self-funded" or "Likely self-funded"; else "Insured" if every label is
exactly "Insured" or begins with "Likely insured"; else
"Mixed/Indeterminate"; and an empty post-filter plan list produces the
distinct no-matching-plans outcome instead of any of the three labels. -/
theorem overall_rollup_policy (labels : List String) :
    (labels = [] → company_verdict labels = none)
    ∧ ((∃ c ∈ labels, c.startsWith "Self-funded" = true ∨ c.startsWith "Likely self-funded" = true) →
        company_verdict labels = some "Self-funded (at least one plan)")
    ∧ (labels ≠ [] →
        (∀ c ∈ labels, ¬(c.startsWith "Self-funded" = true ∨ c.startsWith "Likely self-funded" = true)) →
        (∀ c ∈ labels, c = "Insured" ∨ c.startsWith "Likely insured" = true) →
        company_verdict labels = some "Insured")
    ∧ (labels ≠ [] →
        (∀ c ∈ labels, ¬(c.startsWith "Self-funded" = true ∨ c.startsWith "Likely self-funded" = true)) →
        (∃ c ∈ labels, ¬(c = "Insured" ∨ c.startsWith "Likely insured" = true)) →
        company_verdict labels = some "Mixed/Indeterminate") := by
  refine ⟨fun h => by simp [company_verdict, h], fun hex => ?_, fun hne hnone hall => ?_,
    fun hne hnone hex => ?_⟩
  · obtain ⟨c, hc, hor⟩ := hex
    have hne : labels ≠ [] := by rintro rfl; exact absurd hc (List.not_mem_nil c)
    simp only [company_verdict, List.isEmpty_iff, if_neg hne, overall_classification]
    rw [if_pos]
    rw [List.any_eq_true]
    exact ⟨c, hc, by rcases hor with h | h <;> simp [h]⟩
  · simp only [company_verdict, List.isEmpty_iff, if_neg hne, overall_classification]
    rw [if_neg, if_pos]
    · rw [List.all_eq_true]
      intro c hc
      rcases hall c hc with h | h <;> simp [h]
    · rw [List.any_eq_true]
      rintro ⟨c, hc, h⟩
      exact hnone c hc (by simpa using h)
  · simp only [company_verdict, List.isEmpty_iff, if_neg hne, overall_classification]
    rw [if_neg, if_neg]
    · rw [List.all_eq_true]
      obtain ⟨c, hc, h⟩ := hex
      intro hall
      have := hall c hc
      simp only [Bool.or_eq_true, beq_iff_eq] at this
      exact h this
    · rw [List.any_eq_true]
      rintro ⟨c, hc, h⟩
      exact hnone c hc (by simpa using h)

/-- The flags row `r` merges into begin-index entry `k`. -/
def contribB (k : SKey) (r : SchedARow) : Flags :=
  if pyStrip r.SCH_A_EIN = "" ∨ pyStrip r.SCH_A_PLAN_NUM = "" then emptyFlags
  else if year4 (pyStrip r.SCH_A_PLAN_YEAR_BEGIN_DATE) = "" then emptyFlags
  else if k = (pyStrip r.SCH_A_EIN, pyStrip r.SCH_A_PLAN_NUM,
      year4 (pyStrip r.SCH_A_PLAN_YEAR_BEGIN_DATE)) then
    ⟨is_true r.WLFR_BNFT_HEALTH_IND, is_true r.WLFR_BNFT_STOP_LOSS_IND⟩
  else emptyFlags

/-- The flags row `r` merges into end-index entry `k`. -/
def contribE (k : SKey) (r : SchedARow) : Flags :=
  if pyStrip r.SCH_A_EIN = "" ∨ pyStrip r.SCH_A_PLAN_NUM = "" then emptyFlags
  else if year4 (pyStrip r.SCH_A_PLAN_YEAR_END_DATE) = "" then emptyFlags
  else if k = (pyStrip r.SCH_A_EIN, pyStrip r.SCH_A_PLAN_NUM,
      year4 (pyStrip r.SCH_A_PLAN_YEAR_END_DATE)) then
    ⟨is_true r.WLFR_BNFT_HEALTH_IND, is_true r.WLFR_BNFT_STOP_LOSS_IND⟩
  else emptyFlags

lemma flags_eta (f : Flags) : (⟨f.health, f.stop⟩ : Flags) = f := rfl

lemma processRow_app (acc : SIndex × SIndex) (r : SchedARow) (k : SKey) :
    (processRow acc r).1 k =
      ⟨(acc.1 k).health || (contribB k r).health, (acc.1 k).stop || (contribB k r).stop⟩
    ∧ (processRow acc r).2 k =
      ⟨(acc.2 k).health || (contribE k r).health, (acc.2 k).stop || (contribE k r).stop⟩ := by
  by_cases h1 : pyStrip r.SCH_A_EIN = "" ∨ pyStrip r.SCH_A_PLAN_NUM = ""
  · simp [processRow, contribB, contribE, h1, emptyFlags, flags_eta]
  · constructor
    · simp only [processRow, contribB, if_neg h1]
      by_cases h2 : year4 (pyStrip r.SCH_A_PLAN_YEAR_BEGIN_DATE) = ""
      · simp [h2, emptyFlags, flags_eta]
      · by_cases h3 : k = (pyStrip r.SCH_A_EIN, pyStrip r.SCH_A_PLAN_NUM,
            year4 (pyStrip r.SCH_A_PLAN_YEAR_BEGIN_DATE))
        · simp [indexStep, h2, h3]
        · simp [indexStep, h2, h3, emptyFlags, flags_eta]
    · simp only [processRow, contribE, if_neg h1]
      by_cases h2 : year4 (pyStrip r.SCH_A_PLAN_YEAR_END_DATE) = ""
      · simp [h2, emptyFlags, flags_eta]
      · by_cases h3 : k = (pyStrip r.SCH_A_EIN, pyStrip r.SCH_A_PLAN_NUM,
            year4 (pyStrip r.SCH_A_PLAN_YEAR_END_DATE))
        · simp [indexStep, h2, h3]
        · simp [indexStep, h2, h3, emptyFlags, flags_eta]

lemma foldl_index_char (rows : List SchedARow) :
    ∀ (acc : SIndex × SIndex) (k : SKey),
      (rows.foldl processRow acc).1 k =
        ⟨(acc.1 k).health || rows.any (fun r => (contribB k r).health),
         (acc.1 k).stop || rows.any (fun r => (contribB k r).stop)⟩
      ∧ (rows.foldl processRow acc).2 k =
        ⟨(acc.2 k).health || rows.any (fun r => (contribE k r).health),
         (acc.2 k).stop || rows.any (fun r => (contribE k r).stop)⟩ := by
  induction rows with
  | nil => intro acc k; simp [flags_eta]
  | cons r rows ih =>
    intro acc k
    have hstep := processRow_app acc r k
    have := ih (processRow acc r) k
    rw [List.foldl_cons] at *
    rw [this.1, this.2, hstep.1, hstep.2]
    simp [Bool.or_assoc]

/-- The index entry at `k` is exactly the OR of the contributions of all
rows, independent of accumulation order. -/
lemma build_char (rows : List SchedARow) (k : SKey) :
    (build_schedA_index rows).1 k =
      ⟨rows.any (fun r => (contribB k r).health), rows.any (fun r => (contribB k r).stop)⟩
    ∧ (build_schedA_index rows).2 k =
      ⟨rows.any (fun r => (contribE k r).health), rows.any (fun r => (contribE k r).stop)⟩ := by
  have := foldl_index_char rows (fun _ => emptyFlags, fun _ => emptyFlags) k
  simpa [build_schedA_index, emptyFlags] using this

lemma any_of_perm {α : Type} {l l' : List α} (h : l.Perm l') (p : α → Bool) :
    l.any p = l'.any p := by
  have : (l.any p = true) ↔ (l'.any p = true) := by
    simp only [List.any_eq_true]
    exact ⟨fun ⟨x, hx, hp⟩ => ⟨x, h.subset hx, hp⟩, fun ⟨x, hx, hp⟩ => ⟨x, h.symm.subset hx, hp⟩⟩
  cases hl : l.any p <;> cases hl' : l'.any p <;> simp_all

/-- C5: the Schedule-A index build is order-independent and idempotent:
permuting the row sequence, or indexing every row twice, yields identical
index contents, because flags are only OR-merged into entries and never
overwritten. -/
theorem schedA_index_order_independent :
    (∀ rows rows' : List SchedARow, rows.Perm rows' →
      build_schedA_index rows = build_schedA_index rows')
    ∧ (∀ rows : List SchedARow, build_schedA_index (rows ++ rows) = build_schedA_index rows) := by
  constructor
  · intro rows rows' hp
    refine Prod.ext ?_ ?_ <;> funext k
    · rw [(build_char rows k).1, (build_char rows' k).1,
        any_of_perm hp, any_of_perm hp]
    · rw [(build_char rows k).2, (build_char rows' k).2,
        any_of_perm hp, any_of_perm hp]
  · intro rows
    refine Prod.ext ?_ ?_ <;> funext k
    · rw [(build_char (rows ++ rows) k).1, (build_char rows k).1]
      simp
    · rw [(build_char (rows ++ rows) k).2, (build_char rows k).2]
      simp

/-- A Schedule A row with health coverage. -/
def rowHealth : SchedARow := ⟨"12-3456789", "001", "2023-01-01", "2023-12-31", "1", "0"⟩

/-- A Schedule A row with stop-loss coverage. -/
def rowStop : SchedARow := ⟨"12-3456789", "001", "2023-01-01", "2023-12-31", "0", "1"⟩

/-- C5 witness: swapping two concrete Schedule A rows satisfies the
permutation hypothesis and yields the same pair of indexes. -/
theorem schedA_index_order_independent_check :
    ([rowHealth, rowStop] : List SchedARow).Perm [rowStop, rowHealth]
    ∧ build_schedA_index [rowHealth, rowStop] = build_schedA_index [rowStop, rowHealth] :=
  ⟨List.Perm.swap rowStop rowHealth [],
   schedA_index_order_independent.1 [rowHealth, rowStop] [rowStop, rowHealth]
     (List.Perm.swap rowStop rowHealth [])⟩

/-- Embedding of the conversion `[int(year) for year in available_years]`
(process_data.py line 22): `none` models the ValueError Python raises on a
non-numeric year string. -/
def convertYears : List String → Option (List Int)
  | [] => some []
  | y :: t =>
    match pyInt y, convertYears t with
    | some n, some ns => some (n :: ns)
    | _, _ => none

/-- Embedding of `years.sort(reverse=True)`: the year list in descending
order. -/
def sortDesc (ys : List Int) : List Int :=
  List.insertionSort (fun a b => a ≥ b) ys

/-- Embedding of `get_preferred_year(available_years)` (process_data.py
lines 14-40).  `Except.error ()` models an uncaught Python exception
(ValueError from `int`, or IndexError on the unreachable empty indexing);
`Except.ok none` is Python's `return None`. -/
def get_preferred_year (available_years : List String) : Except Unit (Option String) :=
  if available_years.isEmpty then Except.ok none
  else
    match convertYears available_years with
    | none => Except.error ()
    | some ys =>
      let years := sortDesc ys
      if (2023 : Int) ∈ years then Except.ok (some "2023")
      else if (2022 : Int) ∈ years then Except.ok (some "2022")
      else if years.length = 1 ∧ (2024 : Int) ∈ years then Except.ok (some "2024")
      else
        match years.find? (fun y => y != 2024) with
        | some y => Except.ok (some (toString y))
        | none =>
          match years with
          | y :: _ => Except.ok (some (toString y))
          | [] => Except.error ()

lemma convertYears_ne_nil {l : List String} {ys : List Int}
    (h : convertYears l = some ys) (hne : l ≠ []) : ys ≠ [] := by
  match l, hne with
  | y :: t, _ =>
    rw [convertYears] at h
    rcases hy : pyInt y with _ | n <;> rcases ht : convertYears t with _ | ns <;>
      rw [hy, ht] at h <;> simp_all
    rintro rfl
    simp_all

lemma find_first_max (l : List Int) (hs : l.Sorted (fun a b => a ≥ b)) (m : Int)
    (hm : m ∈ l) (hm24 : m ≠ 2024) (hmax : ∀ y ∈ l, y ≠ 2024 → y ≤ m) :
    l.find? (fun y => y != 2024) = some m := by
  induction l with
  | nil => cases hm
  | cons a t ih =>
    rw [List.sorted_cons] at hs
    by_cases ha : a = (2024 : Int)
    · have hstep : List.find? (fun y : Int => y != 2024) (a :: t) =
          List.find? (fun y : Int => y != 2024) t := by
        simp [ha]
      rw [hstep]
      have hmt : m ∈ t := by
        rcases List.mem_cons.mp hm with h | h
        · exact absurd (h.trans ha) hm24
        · exact h
      exact ih hs.2 hmt (fun y hy hy24 => hmax y (List.mem_cons_of_mem a hy) hy24)
    · have hstep : List.find? (fun y : Int => y != 2024) (a :: t) = some a := by
        simp [ha]
      rw [hstep]
      have h1 : a ≤ m := hmax a (List.mem_cons_self a t) ha
      have h2 : m ≤ a := by
        rcases List.mem_cons.mp hm with h | h
        · exact le_of_eq h
        · exact hs.1 m h
      rw [le_antisymm h1 h2]

lemma sortDesc_perm (ys : List Int) : (sortDesc ys).Perm ys :=
  List.perm_insertionSort _ ys

lemma sortDesc_sorted (ys : List Int) : (sortDesc ys).Sorted (fun a b => a ≥ b) :=
  List.sorted_insertionSort _ ys

/-- C2: for every convertible list of year strings the Year Preference
Resolver returns "2023" if 2023 is present; else "2022" if 2022 is present;
else "2024" when only 2024 is present (covering both the singleton rule and
the only-2024 fallback); else the most recent year present that is not
2024, rendered as its decimal string; and for the empty list it returns
absence (no year), not an error. -/
theorem get_preferred_year_policy (l : List String) (ys : List Int)
    (hconv : convertYears l = some ys) :
    (l = [] → get_preferred_year l = Except.ok none)
    ∧ (l ≠ [] →
        ((2023 : Int) ∈ ys → get_preferred_year l = Except.ok (some "2023"))
        ∧ ((2023 : Int) ∉ ys → (2022 : Int) ∈ ys →
            get_preferred_year l = Except.ok (some "2022"))
        ∧ ((∀ y ∈ ys, y = (2024 : Int)) → get_preferred_year l = Except.ok (some "2024"))
        ∧ (∀ m : Int, (2023 : Int) ∉ ys → (2022 : Int) ∉ ys → m ∈ ys → m ≠ 2024 →
            (∀ y ∈ ys, y ≠ (2024 : Int) → y ≤ m) →
            get_preferred_year l = Except.ok (some (toString m)))) := by
  refine ⟨fun h => by simp [get_preferred_year, h], fun hne => ?_⟩
  have hys : ys ≠ [] := convertYears_ne_nil hconv hne
  have hemp : l.isEmpty = false := by simpa using hne
  have hperm := sortDesc_perm ys
  have hbody : get_preferred_year l =
      (let years := sortDesc ys
      if (2023 : Int) ∈ years then Except.ok (some "2023")
      else if (2022 : Int) ∈ years then Except.ok (some "2022")
      else if years.length = 1 ∧ (2024 : Int) ∈ years then Except.ok (some "2024")
      else
        match years.find? (fun y => y != 2024) with
        | some y => Except.ok (some (toString y))
        | none =>
          match years with
          | y :: _ => Except.ok (some (toString y))
          | [] => Except.error ()) := by
    simp [get_preferred_year, hemp, hconv]
  refine ⟨fun h23 => ?_, fun h23 h22 => ?_, fun hall => ?_, fun m h23 h22 hm hm24 hmax => ?_⟩
  · rw [hbody]
    simp [hperm.mem_iff.mpr h23]
  · rw [hbody]
    have h23s : (2023 : Int) ∉ sortDesc ys := fun h => h23 (hperm.mem_iff.mp h)
    simp [h23s, hperm.mem_iff.mpr h22]
  · rw [hbody]
    have h23s : (2023 : Int) ∉ sortDesc ys := by
      intro h
      have := hall _ (hperm.mem_iff.mp h)
      omega
    have h22s : (2022 : Int) ∉ sortDesc ys := by
      intro h
      have := hall _ (hperm.mem_iff.mp h)
      omega
    have hsne : sortDesc ys ≠ [] := by
      intro h
      rw [h] at hperm
      exact hys hperm.symm.eq_nil
    by_cases hlen : (sortDesc ys).length = 1 ∧ (2024 : Int) ∈ sortDesc ys
    · simp [h23s, h22s, hlen]
    · have hfind : (sortDesc ys).find? (fun y => y != 2024) = none := by
        rw [List.find?_eq_none]
        intro x hx
        have := hall _ (hperm.mem_iff.mp hx)
        simp [this]
      simp only [h23s, h22s, hlen, if_neg, if_false, hfind]
      match hskel : sortDesc ys, hsne with
      | y :: t, _ =>
        have hy : y = 2024 :=
          hall _ (hperm.mem_iff.mp (hskel ▸ List.mem_cons_self y t))
        subst hy
        rfl
  · rw [hbody]
    have h23s : (2023 : Int) ∉ sortDesc ys := fun h => h23 (hperm.mem_iff.mp h)
    have h22s : (2022 : Int) ∉ sortDesc ys := fun h => h22 (hperm.mem_iff.mp h)
    have hlen : ¬ ((sortDesc ys).length = 1 ∧ (2024 : Int) ∈ sortDesc ys) := by
      rintro ⟨h1, h24⟩
      match hskel : sortDesc ys, h1 with
      | [y], _ =>
        have hy : y = 2024 := by
          have h24m : (2024 : Int) ∈ [y] := hskel ▸ h24
          have : (2024 : Int) = y := by simpa using h24m
          exact this.symm
        have hmy : m ∈ sortDesc ys := hperm.mem_iff.mpr hm
        rw [hskel] at hmy
        simp [hy] at hmy
        exact hm24 hmy
    have hfind : (sortDesc ys).find? (fun y => y != 2024) = some m := by
      refine find_first_max _ (sortDesc_sorted ys) m (hperm.mem_iff.mpr hm) hm24 ?_
      exact fun y hy hy24 => hmax y (hperm.mem_iff.mp hy) hy24
    rw [if_neg h23s, if_neg h22s, if_neg hlen, hfind]

/-- C2 witness: the spec's scenarios, discharged through the theorem:
{"2024"} resolves to "2024" and {"2020","2024"} resolves to "2020". -/
theorem get_preferred_year_policy_check :
    convertYears ["2024"] = some [2024]
    ∧ get_preferred_year ["2024"] = Except.ok (some "2024")
    ∧ get_preferred_year ["2020", "2024"] = Except.ok (some "2020") := by
  refine ⟨rfl, ?_, ?_⟩
  · exact ((get_preferred_year_policy ["2024"] [2024] rfl).2 (by simp)).2.2.1 (by decide)
  · exact ((get_preferred_year_policy ["2020", "2024"] [2020, 2024] rfl).2 (by simp)).2.2.2
      2020 (by decide) (by decide) (by decide) (by decide) (by decide)

/-- One raw Schedule A plan dict of the aggregation pipeline, as the fields
`aggregate_schedule_a_data` reads (absent fields carry the "0" / "" default
their `get` call substitutes). -/
structure PlanRaw where
  benefitType : String
  carrierName : String
  totalCharges : String
  brokerCommission : String
  personsCovered : String
deriving DecidableEq

/-- Embedding of `s or "0"` applied to a text field: the empty string is
replaced by "0". -/
def orZero (s : String) : String := if s = "" then "0" else s

/-- Decimal-fraction parse on an already-stripped, sign-free character
list: digits, optionally a point and more digits, at least one digit in
total.  Used to model Python `float()` on the currency texts at hand, with
the value taken exactly (a rational) rather than rounded to binary64. -/
def parseDecimal (cs : List Char) : Option ℚ :=
  let ip := cs.takeWhile isDecDigit
  match cs.dropWhile isDecDigit with
  | [] => if ip ≠ [] then some (digitsVal ip : ℚ) else none
  | '.' :: fp =>
    if fp.all isDecDigit ∧ (ip ≠ [] ∨ fp ≠ []) then
      some ((digitsVal ip : ℚ) + (digitsVal fp : ℚ) / ((10 : ℚ) ^ fp.length))
    else none
  | _ => none

/-- Embedding of Python `float(s)` on the decimal currency texts the
aggregator meets: `none` models the ValueError on anything else. -/
def pyFloat (s : String) : Option ℚ :=
  match stripChars s.data with
  | [] => none
  | c :: rest =>
    if c = '+' then parseDecimal rest
    else if c = '-' then (parseDecimal rest).map (fun q => -q)
    else parseDecimal (c :: rest)

/-- One parsed plan entry of the aggregate's `plans` list. -/
structure PlanOut where
  benefit_type : String
  carrier_name : String
  premiums : ℚ
  brokerage_fees : ℚ
  people_covered : Int
deriving DecidableEq

/-- The aggregate dict `aggregate_schedule_a_data` returns. -/
structure Aggregate where
  total_premiums : ℚ
  total_brokerage_fees : ℚ
  total_people_covered : Int
  plans : List PlanOut
deriving DecidableEq

/-- Embedding of the accumulation loop of `aggregate_schedule_a_data`
(process_data.py lines 55-77); `none` models the uncaught ValueError a
malformed numeric text raises mid-loop. -/
def aggLoop : List PlanRaw → Aggregate → Option Aggregate
  | [], acc => some acc
  | p :: rest, acc =>
    match pyFloat (orZero p.totalCharges), pyFloat (orZero p.brokerCommission),
        pyInt (orZero p.personsCovered) with
    | some premiums, some brokerage, some people =>
      aggLoop rest
        ⟨acc.total_premiums + premiums, acc.total_brokerage_fees + brokerage,
         acc.total_people_covered + people,
         acc.plans ++ [⟨p.benefitType, p.carrierName, premiums, brokerage, people⟩]⟩
    | _, _, _ => none

/-- Embedding of `aggregate_schedule_a_data(schedule_a_details,
preferred_year)` (process_data.py lines 43-84): the year-to-plan-list
mapping is a partial function, `none` modelling an absent key. -/
def aggregate_schedule_a_data (schedule_a_details : String → Option (List PlanRaw))
    (preferred_year : String) : Option Aggregate :=
  match schedule_a_details preferred_year with
  | none => some ⟨0, 0, 0, []⟩
  | some year_data => aggLoop year_data ⟨0, 0, 0, []⟩

/-- C7: for every year-to-plan-records mapping and every resolved year
absent from the mapping, the Cost Aggregator returns the zeroed aggregate
(zero premiums, zero brokerage fees, zero people covered, empty plan list)
as a valid outcome, not an error. -/
theorem aggregate_absent_year_zero (details : String → Option (List PlanRaw))
    (y : String) (h : details y = none) :
    aggregate_schedule_a_data details y = some ⟨0, 0, 0, []⟩ := by
  simp [aggregate_schedule_a_data, h]

/-- C7 witness: the empty mapping with year "2023". -/
theorem aggregate_absent_year_zero_check :
    (fun _ : String => (none : Option (List PlanRaw))) "2023" = none
    ∧ aggregate_schedule_a_data (fun _ => none) "2023" = some ⟨0, 0, 0, []⟩ :=
  ⟨rfl, aggregate_absent_year_zero (fun _ => none) "2023" rfl⟩

/-- Modelled from the spec: the aggregation pipeline's upstream extraction
(code not under src/) normalizes invalid or shorter-than-four-digit year
values to "unknown" and keeps them out of the candidate sets, so every
candidate year string handed to the Year Preference Resolver is a four-digit
decimal string. -/
def valid_year_candidate (y : String) : Bool :=
  y.data.length = 4 && y.data.all isDecDigit

lemma isDecDigit_not_ws {c : Char} (h : isDecDigit c = true) : isPyWS c = false := by
  simp only [isDecDigit] at h
  have hm : c ∈ ['0', '1', '2', '3', '4', '5', '6', '7', '8', '9'] := by
    simpa using h
  fin_cases hm <;> rfl

lemma dropWhile_ws_of_digits (l : List Char) (hl : ∀ c ∈ l, isDecDigit c = true) :
    l.dropWhile isPyWS = l := by
  cases l with
  | nil => rfl
  | cons a t =>
    rw [List.dropWhile_cons, isDecDigit_not_ws (hl a (List.mem_cons_self a t))]
    simp

lemma stripChars_digits {cs : List Char} (h : ∀ c ∈ cs, isDecDigit c = true) :
    stripChars cs = cs := by
  unfold stripChars
  rw [dropWhile_ws_of_digits cs h,
    dropWhile_ws_of_digits cs.reverse (fun c hc => h c (List.mem_reverse.mp hc)),
    List.reverse_reverse]

lemma pyInt_of_digits {cs : List Char} (hne : cs ≠ []) (h : ∀ c ∈ cs, isDecDigit c = true) :
    pyInt ⟨cs⟩ = some ((digitsVal cs : Int)) := by
  unfold pyInt
  rw [show (String.mk cs).data = cs from rfl, stripChars_digits h]
  cases cs with
  | nil => exact absurd rfl hne
  | cons c rest =>
    have hc := h c (List.mem_cons_self c rest)
    have hplus : c ≠ '+' := by rintro rfl; exact absurd hc (by decide)
    have hminus : c ≠ '-' := by rintro rfl; exact absurd hc (by decide)
    rw [pyIntCore, if_neg hplus, if_neg hminus,
      if_pos (List.all_eq_true.mpr (fun c hc => h c hc))]

lemma convertYears_valid {l : List String} (h : ∀ y ∈ l, valid_year_candidate y = true) :
    ∃ ys, convertYears l = some ys := by
  induction l with
  | nil => exact ⟨[], rfl⟩
  | cons y t ih =>
    obtain ⟨ys, hys⟩ := ih (fun z hz => h z (List.mem_cons_of_mem _ hz))
    have hv := h y (List.mem_cons_self y t)
    simp only [valid_year_candidate, Bool.and_eq_true] at hv
    have hne : y.data ≠ [] := by
      intro hnil
      rw [hnil] at hv
      simp at hv
    have hdig : ∀ c ∈ y.data, isDecDigit c = true := List.all_eq_true.mp hv.2
    have hpy : pyInt y = some ((digitsVal y.data : Int)) := pyInt_of_digits hne hdig
    refine ⟨(digitsVal y.data : Int) :: ys, ?_⟩
    rw [convertYears, hpy, hys]

/-- C8: when every candidate year string is a four-digit decimal string
(as the spec-modelled upstream normalization guarantees), the resolver's
integer conversion never fails: `get_preferred_year` always returns an ok
result and its error branch is unreachable. -/
theorem valid_years_never_fail_conversion (l : List String)
    (h : ∀ y ∈ l, valid_year_candidate y = true) :
    ∃ r, get_preferred_year l = Except.ok r := by
  by_cases hl : l = []
  · exact ⟨none, by simp [get_preferred_year, hl]⟩
  · obtain ⟨ys, hys⟩ := convertYears_valid h
    have hne : l.isEmpty = false := by simpa using hl
    have hysne : ys ≠ [] := convertYears_ne_nil hys hl
    have hsne : sortDesc ys ≠ [] := by
      intro hnil
      have hperm := sortDesc_perm ys
      rw [hnil] at hperm
      exact hysne hperm.symm.eq_nil
    simp only [get_preferred_year, hne, Bool.false_eq_true, if_false, hys]
    by_cases h1 : (2023 : Int) ∈ sortDesc ys
    · exact ⟨some "2023", by simp [h1]⟩
    · by_cases h2 : (2022 : Int) ∈ sortDesc ys
      · exact ⟨some "2022", by simp [h1, h2]⟩
      · by_cases h3 : (sortDesc ys).length = 1 ∧ (2024 : Int) ∈ sortDesc ys
        · exact ⟨some "2024", by simp [h1, h2, h3]⟩
        · rcases hf : (sortDesc ys).find? (fun y => y != 2024) with _ | yv
          · rcases hsk : sortDesc ys with _ | ⟨y0, t⟩
            · exact absurd hsk hsne
            · refine ⟨some (toString y0), ?_⟩
              rw [← hsk]
              rw [if_neg h1, if_neg h2, if_neg h3]
              simp [hsk]
          · exact ⟨some (toString yv), by simp [h1, h2, h3, hf]⟩

/-- C8 witness: the singleton candidate set {"2023"}. -/
theorem valid_years_never_fail_conversion_check :
    (∀ y ∈ (["2023"] : List String), valid_year_candidate y = true)
    ∧ ∃ r, get_preferred_year ["2023"] = Except.ok r :=
  ⟨by decide, valid_years_never_fail_conversion ["2023"] (by decide)⟩
